import Mathlib

/- Shallow embedding of the jmc compiler sources under verification:
   - src/jmc/compile.py (certificate protocol, tag-file merge, build)
   - src/jmc/compile/command/jmc_function_mixin.py (ItemMixin, EventMixin)
   Definitions follow the Python source; collaborators that are part of the
   repository but not provided under src/ (DataPack internals, JMCFunction
   helpers, utils) are modelled from the spec and say so in their doc
   comments. -/

namespace Jmc

/- ## Embeddings of the Python string primitives the sources use -/

/-- Python str.split with a one-character separator: split at every
occurrence, keeping empty parts; the result is never empty. -/
def py_split (sep : Char) : List Char → List (List Char)
  | [] => [[]]
  | c :: rest =>
    match py_split sep rest with
    | [] => [[]]
    | r :: rs => if c = sep then [] :: r :: rs else (c :: r) :: rs

/-- Python str.strip with no argument: drop whitespace from both ends. -/
def py_strip (l : List Char) : List Char :=
  ((l.dropWhile Char.isWhitespace).reverse.dropWhile Char.isWhitespace).reverse

/-- Python sep.join(lines) for a one-character separator. -/
def py_join (sep : Char) : List (List Char) → List Char
  | [] => []
  | [l] => l
  | l :: ls => l ++ sep :: py_join sep ls

/-- Python str.lower, on the character list (the sources only apply it to
ASCII criteria strings). -/
def py_lower (s : String) : String :=
  String.mk (s.data.map Char.toLower)

/-- Python str.startswith. -/
def py_startswith (s p : String) : Bool :=
  p.data.isPrefixOf s.data

/-- Fuelled worker for Python str.replace: replace non-overlapping
occurrences left to right.  One unit of fuel per consumed character is
enough since every step consumes at least one character. -/
def py_replace_fuel : Nat → List Char → List Char → List Char → List Char
  | 0, l, _, _ => l
  | _ + 1, [], _, _ => []
  | fuel + 1, c :: rest, pat, rep =>
    if pat ≠ [] ∧ pat.isPrefixOf (c :: rest) then
      rep ++ py_replace_fuel fuel ((c :: rest).drop pat.length) pat rep
    else
      c :: py_replace_fuel fuel rest pat rep

/-- Python s.replace(pat, rep) (the sources never use an empty pattern, so
that edge case is irrelevant here). -/
def py_str_replace (s pat rep : String) : String :=
  String.mk (py_replace_fuel s.data.length s.data pat.data rep.data)

/-- Python dict lookup, the dict modelled as an insertion-ordered
association list (as Python dicts are). -/
def dictGet (m : List (String × String)) (k : String) : Option String :=
  match m.find? (fun kv => kv.1 == k) with
  | some kv => some kv.2
  | none => none

/-- Python dict assignment: overwrite in place, or append a new key. -/
def pySet (m : List (String × String)) (k v : String) : List (String × String) :=
  if m.any (fun kv => kv.1 == k) then
    m.map (fun kv => if kv.1 == k then (k, v) else kv)
  else
    m ++ [(k, v)]

/- ## compile.py: certificate protocol and build -/

/-- The five reserved name constants held on the DataPack class
(DataPack.LOAD_NAME, TICK_NAME, PRIVATE_NAME, VAR_NAME, INT_NAME). -/
structure CertNames where
  LOAD_NAME : String
  TICK_NAME : String
  PRIVATE_NAME : String
  VAR_NAME : String
  INT_NAME : String
deriving DecidableEq, Repr

/-- compile.get_cert: a fresh certificate configuration from the current
DataPack class info. -/
def get_cert (names : CertNames) : List (String × String) :=
  [("LOAD", names.LOAD_NAME), ("TICK", names.TICK_NAME),
   ("PRIVATE", names.PRIVATE_NAME), ("VAR", names.VAR_NAME),
   ("INT", names.INT_NAME)]

/-- compile.cert_config_to_string: one KEY=VALUE pair per line. -/
def cert_config_to_string (m : List (String × String)) : String :=
  String.mk (py_join '\n' (m.map (fun kv => kv.1.data ++ '=' :: kv.2.data)))

/-- compile.string_to_cert_config.  Python raises ValueError (modelled as
none) as soon as some line does not split on the equals sign into exactly
one key and one value. -/
def string_to_cert_config (s : String) : Option (List (String × String)) :=
  (py_split '\n' s.data).foldlM
    (fun m line =>
      match py_split '=' line with
      | [k, v] => some (pySet m (String.mk (py_strip k)) (String.mk (py_strip v)))
      | _ => none)
    []

/-- Contents of the output namespace directory data/namespace: the
certificate file jmc.txt, if present, plus the other files (abstract). -/
structure NamespaceDir where
  cert : Option String
  files : List String
deriving DecidableEq, Repr

/-- What compile.read_func_tag sees of a minecraft function tag file after
the stdlib json.loads call: the file may be missing, fail to decode,
decode but lack the values key, or decode with a values list of strings
plus the remaining top-level entries (kept abstract as string pairs). -/
inductive TagFileState where
  | missing : TagFileState
  | malformed : TagFileState
  | noValuesKey : TagFileState
  | parsed : List String → List (String × String) → TagFileState
deriving DecidableEq, Repr

/-- The filesystem locations compile.py touches. -/
structure FS where
  nsDir : Option NamespaceDir
  loadTag : TagFileState
  tickTag : TagFileState
deriving DecidableEq, Repr

/-- Filesystem events on the output namespace directory, in the order the
code performs them: reading jmc.txt, shutil.rmtree of the namespace
directory, make_cert writing the fresh jmc.txt, and the phase of build
that writes the regenerated namespace contents. -/
inductive FsEvent where
  | readCert : FsEvent
  | rmtree : FsEvent
  | writeCert : FsEvent
  | regenerate : FsEvent
deriving DecidableEq, Repr

/-- Result of running a compile.py step: the outcome (JMCBuildError message
or the adopted reserved names), the filesystem afterwards, and the ordered
namespace-directory events that occurred. -/
structure RunResult where
  outcome : Except String CertNames
  fs : FS
  events : List FsEvent
deriving Repr

/-- compile.read_cert as a pure transition on the filesystem model.  The
ok outcome carries the adopted reserved names (the assignments to the
DataPack class constants); raising JMCBuildError is the error case, which
performs no filesystem effect at all. -/
def read_cert (fs : FS) (old : CertNames) : RunResult :=
  let old_cert_config := get_cert old
  match fs.nsDir with
  | some d =>
    match d.cert with
    | none =>
      { outcome := .error ("jmc.txt file not found in namespace folder.\n To prevent accidental overriding of your datapack please delete the namespace folder yourself."),
        fs := fs,
        events := [] }
    | some cert_str =>
      let cert_config := (string_to_cert_config cert_str).getD []
      let names : CertNames :=
        { LOAD_NAME := (dictGet cert_config ("LOAD")).getD old.LOAD_NAME,
          TICK_NAME := (dictGet cert_config ("TICK")).getD old.TICK_NAME,
          PRIVATE_NAME := (dictGet cert_config ("PRIVATE")).getD old.PRIVATE_NAME,
          VAR_NAME := (dictGet cert_config ("VAR")).getD old.VAR_NAME,
          INT_NAME := (dictGet cert_config ("INT")).getD old.INT_NAME }
      { outcome := .ok names,
        fs := { fs with nsDir := some { cert := some (cert_config_to_string (get_cert names)), files := [] } },
        events := [.readCert, .rmtree, .writeCert] }
  | none =>
    { outcome := .ok old,
      fs := { fs with nsDir := some { cert := some (cert_config_to_string old_cert_config), files := [] } },
      events := [.writeCert] }

/-- compile.read_func_tag: read a function tag file, dropping every values
entry that starts with this namespace prefix and a colon; a missing file
is an empty values list; decode failure or a missing values key raises
JMCBuildError. -/
def read_func_tag (t : TagFileState) (ns : String) :
    Except String (List String × List (String × String)) :=
  match t with
  | .missing => .ok ([], [])
  | .malformed =>
    .error ("MalformedJsonException: Cannot parse the tag file. Deleting the file to reset.")
  | .noValuesKey =>
    .error ("\"values\" key not found in the tag file. Deleting the file to reset.")
  | .parsed values others =>
    .ok (values.filter (fun v => !(py_startswith v (ns ++ ":"))), others)

/-- Lookup in the DataPack functions mapping (dotted path to commands).
Modelled from the spec: a Function object is truthy iff it has content,
and only non-empty functions are written (the Function class is not under
src/), so a function is its command list. -/
def lookupFunc (funcs : List (String × List String)) (name : String) :
    Option (List String) :=
  match funcs.find? (fun kv => kv.1 == name) with
  | some kv => some kv.2
  | none => none

/-- The Python condition on line 196 of compile.py:
DataPack.TICK_NAME in datapack.functions and datapack.functions[DataPack.TICK_NAME],
a Function being truthy iff non-empty. -/
def tick_function_present (funcs : List (String × List String)) (names : CertNames) : Bool :=
  match lookupFunc funcs names.TICK_NAME with
  | some cmds => !cmds.isEmpty
  | none => false

/-- compile.build, restricted to filesystem effects.  datapack.build() is
in-memory; pack.mcmeta and the tag folder live outside the namespace
directory so they carry no namespace event.  The code reads both tag
files, then writes load.json with this namespace load entry appended,
then writes tick.json the same way only when a non-empty tick function
exists, then writes the namespace function and json files (the regenerate
event). -/
def build_run (fs : FS) (names : CertNames) (ns : String)
    (funcs : List (String × List String)) : RunResult :=
  match read_func_tag fs.loadTag ns with
  | .error e => { outcome := .error e, fs := fs, events := [] }
  | .ok load_json =>
    match read_func_tag fs.tickTag ns with
    | .error e => { outcome := .error e, fs := fs, events := [] }
    | .ok tick_json =>
      let fs1 : FS :=
        { fs with loadTag := .parsed (load_json.1 ++ [ns ++ ":" ++ names.LOAD_NAME]) load_json.2 }
      let fs2 : FS :=
        if tick_function_present funcs names then
          { fs1 with tickTag := .parsed (tick_json.1 ++ [ns ++ ":" ++ names.TICK_NAME]) tick_json.2 }
        else fs1
      { outcome := .ok names,
        fs := { fs2 with nsDir := fs2.nsDir.map (fun d =>
                  { d with files := (funcs.filter (fun kv => !kv.2.isEmpty)).map (fun kv => kv.1) }) },
        events := [.regenerate] }

/-- compile.compile: Header.clear (in-memory), read_cert, read_header (a
read outside the namespace), the Lexer producing the datapack functions
(pure, passed here as funcs), then build. -/
def compile_run (fs : FS) (old : CertNames) (ns : String)
    (funcs : List (String × List String)) : RunResult :=
  let r := read_cert fs old
  match r.outcome with
  | .error e => { outcome := .error e, fs := r.fs, events := r.events }
  | .ok names =>
    let b := build_run r.fs names ns funcs
    { outcome := b.outcome, fs := b.fs, events := r.events ++ b.events }

/- ## jmc_function_mixin.py: ItemMixin and EventMixin -/

/-- tokenizer.Token, reduced to the payload these claims need: the token
string (error attribution position is irrelevant to the properties). -/
structure Token where
  string : String
deriving DecidableEq, Repr

/-- exception.JMCValueError payload: the message and the token the error
points at. -/
structure JMCValueError where
  message : String
  token : Token
deriving DecidableEq, Repr

/-- datapack_data.Item as the two create functions construct it:
Item(item_type, raw js object string, raw_nbt dict). -/
structure Item where
  item_type : String
  raw : String
  raw_nbt : List (String × Token)
deriving DecidableEq, Repr

/-- Modelled from the spec: DataPack.token_dict_to_raw_js_object (DataPack
is not under src/) serializes the structured NBT mapping into the
engine-native object string. -/
def token_dict_to_raw_js_object (nbt : List (String × Token)) : String :=
  "\x7b" ++ String.intercalate (",") (nbt.map (fun kv => kv.1 ++ ":" ++ kv.2.string)) ++ "\x7d"

/-- The override loop shared verbatim by ItemMixin.create_new_item and
ItemMixin.create_item:
  for key, value_token in modify_nbt.items():
      if key in nbt: raise JMCValueError(key + " is already inside the nbt", ...)
      nbt[key] = value_token
The raised token is error_token when one was supplied, else the
conflicting value token. -/
def overlay_nbt (nbt : List (String × Token)) (modify : List (String × Token))
    (error_token : Option Token) : Except JMCValueError (List (String × Token)) :=
  match modify with
  | [] => .ok nbt
  | kv :: rest =>
    if kv.1 ∈ nbt.map (fun kv2 => kv2.1) then
      .error { message := kv.1 ++ " is already inside the nbt",
               token := error_token.getD kv.2 }
    else
      overlay_nbt (nbt ++ [kv]) rest error_token

/-- ItemMixin.create_new_item: copy an Item, overlaying modify_nbt. -/
def create_new_item (item : Item) (modify_nbt : List (String × Token))
    (error_token : Option Token) : Except JMCValueError Item :=
  match overlay_nbt item.raw_nbt modify_nbt error_token with
  | .error e => .error e
  | .ok nbt =>
    .ok { item_type := item.item_type,
          raw := token_dict_to_raw_js_object nbt,
          raw_nbt := nbt }

/-- Modelled from the spec: the rich-text formatter (utils.FormattedText,
not under src/) renders a display-name or lore string as a JSON text
component with italics defaulted off.  The claims only apply it to plain
strings, so the disallowed score/selector path never fires here. -/
def formatted_text (s : String) : String :=
  "\x7b\"text\":\"" ++ s ++ "\",\"italic\":false\x7d"

/-- A Python exception escaping create_item: either the JMCValueError it
raises deliberately, or the UnboundLocalError from referencing a local
variable before assignment. -/
inductive PyError where
  | valueError : JMCValueError → PyError
  | unboundLocal : String → PyError
deriving DecidableEq, Repr

/-- ItemMixin.create_item.  Argument access is modelled at the boundary:
self.args[itemType] and self.args[displayName] are the strings (an empty
string is the falsy, absent case), a falsy lore/nbt argument is none and a
supplied one arrives pre-parsed (datapack.parse_list and
tokenizer.parse_js_obj are not under src/).  The local variable final_nbt
is an Option set exactly where the Python assignments occur; reading it
while none is Python raising UnboundLocalError, which the source code does
because its final_nbt initialization is indented under the
bracket_components test. -/
def create_item (item_type_arg : String) (display_name_arg : String)
    (lore_arg : Option (List String)) (nbt_arg : Option (List (String × Token)))
    (modify_nbt : List (String × Token)) : Except PyError Item :=
  let item_type :=
    if py_startswith item_type_arg ("minecraft:") then String.mk (item_type_arg.data.drop 10)
    else item_type_arg
  let lore_json : List String :=
    match lore_arg with
    | none => []
    | some lores => lores.map (fun lore => formatted_text lore)
  let nbt0 : List (String × Token) := nbt_arg.getD []
  match overlay_nbt nbt0 modify_nbt none with
  | .error e => .error (.valueError e)
  | .ok nbt =>
    let nameComponents : List String :=
      if display_name_arg ≠ "" then
        let name_text := formatted_text display_name_arg
        if name_text ≠ "" then [("custom_name=") ++ name_text] else []
      else []
    let loreComponents : List String :=
      if lore_json ≠ [] then [("lore=[") ++ String.intercalate (",") lore_json ++ ("]")] else []
    let bracketComponents : List String := nameComponents ++ loreComponents
    let bracket_str : String :=
      if bracketComponents ≠ [] then ("[") ++ String.intercalate (",") bracketComponents ++ ("]")
      else ""
    let final_nbt0 : Option (List (String × Token)) :=
      if bracketComponents ≠ [] then some [] else none
    let afterLoop : Except PyError (Option (List (String × Token))) :=
      if nbt ≠ [] then
        nbt.foldlM (fun f kv =>
          if kv.1 = ("custom_name") ∨ kv.1 = ("lore") then Except.ok f
          else
            match f with
            | none => Except.error (PyError.unboundLocal ("final_nbt"))
            | some fl => Except.ok (some (fl ++ [kv]))) final_nbt0
      else Except.ok final_nbt0
    match afterLoop with
    | .error e => .error e
    | .ok none => .error (.unboundLocal ("final_nbt"))
    | .ok (some final_nbt) =>
      .ok { item_type := item_type ++ bracket_str,
            raw := token_dict_to_raw_js_object final_nbt,
            raw_nbt := final_nbt }

/-- The DataPack state the event mixin touches.  Modelled from the spec
where the DataPack and JMCFunction implementations are not under src/:
objectives is the registered (name, criteria) list, private_functions the
content-addressed mapping (category, deduplication key) to command list,
tick_commands the ordered per-tick dispatch list, and used_calls the
(name, parameters) tuples is_never_used has recorded this compilation. -/
structure DataPackState where
  objectives : List (String × String)
  private_functions : List ((String × String) × List String)
  tick_commands : List String
  used_calls : List (String × List String)
deriving DecidableEq, Repr

/-- The DataPack state at the start of a compilation. -/
def emptyDataPack : DataPackState :=
  { objectives := [], private_functions := [], tick_commands := [], used_calls := [] }

/-- Modelled from the spec: JMCFunction.is_never_used (not under src/):
true iff no prior invocation recorded this (name, parameters) tuple in
the current compilation, recording it as used. -/
def is_never_used (st : DataPackState) (name : String) (parameters : List String) :
    Bool × DataPackState :=
  if (name, parameters) ∈ st.used_calls then (false, st)
  else (true, { st with used_calls := st.used_calls ++ [(name, parameters)] })

/-- Modelled from the spec: utils.hash_string_to_string (not under src/):
a deterministic stable hash of the string, rendered in hexadecimal and
truncated to the requested length. -/
def hash_string_to_string (s : String) (len : Nat) : String :=
  String.mk ((Nat.toDigits 16 (s.data.foldl (fun h c => (h * 131 + c.toNat) % 4294967296) 5381)).take len)

/-- Modelled from the spec: the call reference
DataPack.add_raw_private_function returns for the generated private
function of a category and deduplication key (DataPack not under src/). -/
def private_function_call (category : String) (count : String) : String :=
  ("function __namespace__:__private__/") ++ category ++ ("/") ++ count

/-- The normalized criterion of EventMixin.add_events, line 127:
criteria.replace("minecraft.", ""). -/
def normalized_criteria (criteria : String) : String :=
  py_str_replace criteria ("minecraft.") ""

/-- The deduplication key of EventMixin.add_events, line 128:
criteria.lower().replace(":", "_"). -/
def event_count (criteria1 : String) : String :=
  py_str_replace (py_lower criteria1) (":") ("_")

/-- The generated objective name of EventMixin.add_events, line 130. -/
def event_objective (criteria1 : String) : String :=
  ("on_event_") ++ hash_string_to_string criteria1 7

/-- The score-reset command heading the private function body,
EventMixin.add_events line 134. -/
def event_reset (criteria1 : String) : String :=
  ("scoreboard players set @s ") ++ event_objective criteria1 ++ (" 0")

/-- The per-tick dispatch command of EventMixin.add_events, line 136:
runs the private function as every actor whose tracked score is in the
selector range 1.. . -/
def event_dispatch (criteria1 : String) : String :=
  ("execute as @a[scores=\x7b") ++ event_objective criteria1 ++ ("=1..\x7d] at @s run ") ++
    private_function_call ("on_event") (event_count criteria1)

/-- EventMixin.add_events as a transition on the DataPack state.  The
DataPack primitives it calls (add_objective, add_raw_private_function,
add_tick_command, Function.extend), not under src/, are modelled from the
spec as the evident list operations on DataPackState. -/
def add_events (st : DataPackState) (criteria : String) (commands : List String) :
    DataPackState :=
  let criteria1 := normalized_criteria criteria
  let count := event_count criteria1
  match is_never_used st ("on_event") [criteria1] with
  | (true, st1) =>
    { st1 with
      objectives := st1.objectives ++ [(event_objective criteria1, criteria1)],
      private_functions := st1.private_functions ++
        [((("on_event"), count), event_reset criteria1 :: commands)],
      tick_commands := st1.tick_commands ++ [event_dispatch criteria1] }
  | (false, st1) =>
    { st1 with
      private_functions := st1.private_functions.map (fun e =>
        if e.1 = ((("on_event"), count)) then (e.1, e.2 ++ commands) else e) }

/-- EventMixin.add_event: the one-command wrapper over add_events. -/
def add_event (st : DataPackState) (criteria : String) (command : String) :
    DataPackState :=
  add_events st criteria [command]

/- ## Theorems -/

/-- C1: if the output namespace directory exists but contains no
certificate file jmc.txt, the compilation fails with a build error and
aborts before deleting or writing anything inside that directory: the
filesystem (namespace contents included) is unchanged and no
namespace-directory event occurred. -/
theorem certificate_missing_aborts (fs : FS) (old : CertNames) (ns : String)
    (funcs : List (String × List String)) (d : NamespaceDir)
    (hdir : fs.nsDir = some d) (hcert : d.cert = none) :
    (∃ e, (compile_run fs old ns funcs).outcome = Except.error e) ∧
    (compile_run fs old ns funcs).fs = fs ∧
    (compile_run fs old ns funcs).events = [] := by
  simp [compile_run, read_cert, hdir, hcert]

/-- Witness for C1 at a concrete certified-less namespace. -/
theorem certificate_missing_aborts_witness :
    (∃ e, (compile_run
        { nsDir := some { cert := none, files := ["hand_authored.mcfunction"] },
          loadTag := .missing, tickTag := .missing }
        ⟨"__load__", "__tick__", "__private__", "__variable__", "__int__"⟩
        ("my_ns") []).outcome = Except.error e) ∧
    (compile_run
        { nsDir := some { cert := none, files := ["hand_authored.mcfunction"] },
          loadTag := .missing, tickTag := .missing }
        ⟨"__load__", "__tick__", "__private__", "__variable__", "__int__"⟩
        ("my_ns") []).fs =
      { nsDir := some { cert := none, files := ["hand_authored.mcfunction"] },
        loadTag := .missing, tickTag := .missing } ∧
    (compile_run
        { nsDir := some { cert := none, files := ["hand_authored.mcfunction"] },
          loadTag := .missing, tickTag := .missing }
        ⟨"__load__", "__tick__", "__private__", "__variable__", "__int__"⟩
        ("my_ns") []).events = [] :=
  certificate_missing_aborts _ _ _ _ { cert := none, files := ["hand_authored.mcfunction"] } rfl rfl

/-- C2 counterexample: compiling into an existing certified namespace
performs read, destroy, write-fresh-certificate, regenerate — the fresh
certificate is written by read_cert before build regenerates the
contents, so the claimed read-destroy-regenerate-write order is not the
one the code executes. -/
theorem cert_write_precedes_regenerate_cex :
    (compile_run
        { nsDir := some { cert := some ("LOAD=a\nTICK=b\nPRIVATE=c\nVAR=d\nINT=e"), files := [] },
          loadTag := .missing, tickTag := .missing }
        ⟨"a", "b", "c", "d", "e"⟩ ("my_ns") []).events =
      [FsEvent.readCert, FsEvent.rmtree, FsEvent.writeCert, FsEvent.regenerate] ∧
    (compile_run
        { nsDir := some { cert := some ("LOAD=a\nTICK=b\nPRIVATE=c\nVAR=d\nINT=e"), files := [] },
          loadTag := .missing, tickTag := .missing }
        ⟨"a", "b", "c", "d", "e"⟩ ("my_ns") []).events ≠
      [FsEvent.readCert, FsEvent.rmtree, FsEvent.regenerate, FsEvent.writeCert] := by
  exact ⟨rfl, by decide⟩

/-- C2 amended: for every compilation into an existing certified namespace
(with readable tag files), the effects occur in the exact order read the
certificate, destroy the namespace directory, write the fresh
certificate, regenerate the namespace contents; in particular no
operation writes any part of the output namespace before the certificate
check has completed, the trace starting with the read. -/
theorem certificate_protocol_order (fs : FS) (old : CertNames) (ns : String)
    (funcs : List (String × List String)) (d : NamespaceDir) (c : String)
    (hdir : fs.nsDir = some d) (hcert : d.cert = some c)
    (hload : ∃ lj, read_func_tag fs.loadTag ns = Except.ok lj)
    (htick : ∃ tj, read_func_tag fs.tickTag ns = Except.ok tj) :
    (compile_run fs old ns funcs).events =
      [FsEvent.readCert, FsEvent.rmtree, FsEvent.writeCert, FsEvent.regenerate] := by
  obtain ⟨lj, hload⟩ := hload
  obtain ⟨tj, htick⟩ := htick
  simp [compile_run, read_cert, build_run, hdir, hcert, hload, htick]

/-- Witness for C2 amended at a concrete certified namespace. -/
theorem certificate_protocol_order_witness :
    (compile_run
        { nsDir := some { cert := some ("LOAD=a\nTICK=b\nPRIVATE=c\nVAR=d\nINT=e"), files := ["f"] },
          loadTag := .missing, tickTag := .missing }
        ⟨"a", "b", "c", "d", "e"⟩ ("my_ns") []).events =
      [FsEvent.readCert, FsEvent.rmtree, FsEvent.writeCert, FsEvent.regenerate] :=
  certificate_protocol_order _ _ _ _
    { cert := some ("LOAD=a\nTICK=b\nPRIVATE=c\nVAR=d\nINT=e"), files := ["f"] } _
    rfl rfl ⟨([], []), rfl⟩ ⟨([], []), rfl⟩

/-- C4 (code bug): create_item with a valid item type but with the
display-name and lore parameters both absent or empty raises Python's
UnboundLocalError on final_nbt (whose initialization is indented under
the bracket-components test), with or without a raw NBT object — instead
of returning an Item as the function's own docstring and the spec
promise. -/
theorem create_item_unbound_local :
    create_item ("minecraft:stick") "" none none [] =
      Except.error (PyError.unboundLocal ("final_nbt")) ∧
    create_item ("minecraft:stick") "" none (some [(("damage"), { string := "5" })]) [] =
      Except.error (PyError.unboundLocal ("final_nbt")) ∧
    create_item ("minecraft:stick") "" none (some [(("custom_name"), { string := "n" })]) [] =
      Except.error (PyError.unboundLocal ("final_nbt")) :=
  ⟨rfl, rfl, rfl⟩

/-- C10: a certificate file whose content is malformed (some line does not
split into exactly one KEY=VALUE pair) does not fail the compilation: the
reserved names fall back to the current defaults and the build proceeds,
deleting and regenerating the namespace and writing a default
certificate. -/
theorem malformed_cert_uses_defaults (fs : FS) (old : CertNames) (ns : String)
    (funcs : List (String × List String)) (d : NamespaceDir) (c : String)
    (hdir : fs.nsDir = some d) (hcert : d.cert = some c)
    (hbad : string_to_cert_config c = none)
    (hload : ∃ lj, read_func_tag fs.loadTag ns = Except.ok lj)
    (htick : ∃ tj, read_func_tag fs.tickTag ns = Except.ok tj) :
    (read_cert fs old).outcome = Except.ok old ∧
    (read_cert fs old).fs.nsDir =
      some { cert := some (cert_config_to_string (get_cert old)), files := [] } ∧
    (compile_run fs old ns funcs).outcome = Except.ok old ∧
    (compile_run fs old ns funcs).events =
      [FsEvent.readCert, FsEvent.rmtree, FsEvent.writeCert, FsEvent.regenerate] := by
  obtain ⟨lj, hload⟩ := hload
  obtain ⟨tj, htick⟩ := htick
  simp [compile_run, read_cert, build_run, hdir, hcert, hbad, hload, htick, dictGet]

/-- Witness for C10 at a concrete malformed certificate. -/
theorem malformed_cert_uses_defaults_witness :
    string_to_cert_config ("this is not key value") = none ∧
    (read_cert
        { nsDir := some { cert := some ("this is not key value"), files := ["f"] },
          loadTag := .missing, tickTag := .missing }
        ⟨"__load__", "__tick__", "__private__", "__variable__", "__int__"⟩).outcome =
      Except.ok ⟨"__load__", "__tick__", "__private__", "__variable__", "__int__"⟩ := by
  refine ⟨by decide, ?_⟩
  exact (malformed_cert_uses_defaults
    { nsDir := some { cert := some ("this is not key value"), files := ["f"] },
      loadTag := .missing, tickTag := .missing }
    ⟨"__load__", "__tick__", "__private__", "__variable__", "__int__"⟩ ("my_ns") []
    { cert := some ("this is not key value"), files := ["f"] } ("this is not key value")
    rfl rfl (by decide) ⟨([], []), rfl⟩ ⟨([], []), rfl⟩).1

/-- C7: on the first binding of a normalized criterion in a compilation,
add_events registers a new objective tracking that criterion, registers a
new private function whose body is the reset of the triggering actor's
tracking score to zero followed by the given commands in order, and
appends exactly one per-tick dispatch command executing that private
function as every actor whose tracked score is at or above one. -/
theorem add_events_first_binding (st : DataPackState) (criteria : String)
    (commands : List String)
    (h : ((("on_event")), [normalized_criteria criteria]) ∉ st.used_calls) :
    (add_events st criteria commands).objectives =
      st.objectives ++
        [(event_objective (normalized_criteria criteria), normalized_criteria criteria)] ∧
    (add_events st criteria commands).private_functions =
      st.private_functions ++
        [((("on_event"), event_count (normalized_criteria criteria)),
          event_reset (normalized_criteria criteria) :: commands)] ∧
    (add_events st criteria commands).tick_commands =
      st.tick_commands ++ [event_dispatch (normalized_criteria criteria)] := by
  simp [add_events, is_never_used, h]

/-- Witness for C7: first binding of minecraft.custom:jump from the empty
compilation state. -/
theorem add_events_first_binding_witness :
    ((("on_event")), [normalized_criteria ("minecraft.custom:jump")]) ∉ emptyDataPack.used_calls ∧
    ((add_events emptyDataPack ("minecraft.custom:jump") [("say jumped")]).objectives =
      emptyDataPack.objectives ++
        [(event_objective (normalized_criteria ("minecraft.custom:jump")),
          normalized_criteria ("minecraft.custom:jump"))] ∧
    (add_events emptyDataPack ("minecraft.custom:jump") [("say jumped")]).private_functions =
      emptyDataPack.private_functions ++
        [((("on_event"), event_count (normalized_criteria ("minecraft.custom:jump"))),
          event_reset (normalized_criteria ("minecraft.custom:jump")) :: [("say jumped")])] ∧
    (add_events emptyDataPack ("minecraft.custom:jump") [("say jumped")]).tick_commands =
      emptyDataPack.tick_commands ++
        [event_dispatch (normalized_criteria ("minecraft.custom:jump"))]) :=
  ⟨by decide, add_events_first_binding emptyDataPack ("minecraft.custom:jump") [("say jumped")] (by decide)⟩

/-- C3: binding two event declarations whose criteria agree after
vendor-prefix stripping within one compilation yields exactly one
registered objective, exactly one private function in category on_event
whose body holds both command lists in declaration order after the
initial score reset, and exactly one per-tick dispatch line — the second
binding extends the existing function body. -/
theorem add_events_dedup (c1 c2 : String) (cmds1 cmds2 : List String)
    (h : normalized_criteria c1 = normalized_criteria c2) :
    (add_events (add_events emptyDataPack c1 cmds1) c2 cmds2).objectives =
      [(event_objective (normalized_criteria c1), normalized_criteria c1)] ∧
    (add_events (add_events emptyDataPack c1 cmds1) c2 cmds2).private_functions =
      [((("on_event"), event_count (normalized_criteria c1)),
        event_reset (normalized_criteria c1) :: (cmds1 ++ cmds2))] ∧
    (add_events (add_events emptyDataPack c1 cmds1) c2 cmds2).tick_commands =
      [event_dispatch (normalized_criteria c1)] := by
  simp [add_events, is_never_used, emptyDataPack, ← h]

/-- Witness for C3 at the spec's example pair minecraft.fish_caught and
fish_caught. -/
theorem add_events_dedup_witness :
    normalized_criteria ("minecraft.fish_caught") = normalized_criteria ("fish_caught") ∧
    ((add_events (add_events emptyDataPack ("minecraft.fish_caught") [("say a")])
        ("fish_caught") [("say b")]).objectives =
      [(event_objective (normalized_criteria ("minecraft.fish_caught")),
        normalized_criteria ("minecraft.fish_caught"))] ∧
    (add_events (add_events emptyDataPack ("minecraft.fish_caught") [("say a")])
        ("fish_caught") [("say b")]).private_functions =
      [((("on_event"), event_count (normalized_criteria ("minecraft.fish_caught"))),
        event_reset (normalized_criteria ("minecraft.fish_caught")) :: ([("say a")] ++ [("say b")]))] ∧
    (add_events (add_events emptyDataPack ("minecraft.fish_caught") [("say a")])
        ("fish_caught") [("say b")]).tick_commands =
      [event_dispatch (normalized_criteria ("minecraft.fish_caught"))]) :=
  ⟨by decide,
   add_events_dedup ("minecraft.fish_caught") ("fish_caught") [("say a")] [("say b")] (by decide)⟩

/-- C8: building from scratch with type minecraft:stick, display name
Excalibur and no raw NBT yields an item string that is stick[ followed by
a custom_name= component (the minecraft: prefix stripped); and raw NBT
that also defines custom_name (and lore) alongside a non-empty display
name does not raise — those raw keys are dropped from the stored
structured NBT. -/
theorem create_item_stick_excalibur :
    (create_item ("minecraft:stick") ("Excalibur") none none [] =
      Except.ok
        { item_type := ("stick[custom_name=\x7b\"text\":\"Excalibur\",\"italic\":false\x7d]"),
          raw := ("\x7b\x7d"), raw_nbt := [] }) ∧
    py_startswith ("stick[custom_name=\x7b\"text\":\"Excalibur\",\"italic\":false\x7d]")
      ("stick[") = true ∧
    ("stick[custom_name=\x7b\"text\":\"Excalibur\",\"italic\":false\x7d]") =
      ("stick[") ++ ("custom_name=") ++ ("\x7b\"text\":\"Excalibur\",\"italic\":false\x7d]") ∧
    (∃ it2, create_item ("minecraft:stick") ("Excalibur") none
        (some [(("custom_name"), { string := "raw" }), (("lore"), { string := "rawlore" }),
               (("damage"), { string := "5" })]) [] = Except.ok it2 ∧
      it2.raw_nbt = [(("damage"), { string := "5" })] ∧
      it2.item_type = ("stick[custom_name=\x7b\"text\":\"Excalibur\",\"italic\":false\x7d]")) := by
  refine ⟨rfl, by decide, by decide, ⟨_, rfl, rfl, rfl⟩⟩

/-- The override loop shared by the two item constructors errors as soon
as some override key already occurs in the NBT being overlaid, naming a
conflicting modify key in the message and carrying its value token (or
the caller-supplied error token). -/
theorem overlay_nbt_conflict (modify : List (String × Token)) :
    ∀ (nbt : List (String × Token)) (errTok : Option Token),
    (∃ kv ∈ modify, kv.1 ∈ nbt.map (fun kv2 => kv2.1)) →
    ∃ k tk, (k, tk) ∈ modify ∧
      overlay_nbt nbt modify errTok =
        Except.error { message := k ++ " is already inside the nbt",
                       token := errTok.getD tk } := by
  induction modify with
  | nil => intro nbt errTok h; simp at h
  | cons head rest ih =>
    intro nbt errTok h
    by_cases hc : head.1 ∈ nbt.map (fun kv2 => kv2.1)
    · refine ⟨head.1, head.2, List.mem_cons_self _ _, ?_⟩
      simp [overlay_nbt, hc]
    · obtain ⟨kv, hmem, hkey⟩ := h
      have hkv : kv ∈ rest := by
        rcases List.mem_cons.mp hmem with h1 | h1
        · exact absurd (h1 ▸ hkey) hc
        · exact h1
      have h2 : kv.1 ∈ (nbt ++ [head]).map (fun kv2 => kv2.1) := by
        rw [List.map_append, List.mem_append]
        exact Or.inl hkey
      obtain ⟨k, tk, hm, he⟩ := ih (nbt ++ [head]) errTok ⟨kv, hkv, h2⟩
      refine ⟨k, tk, List.mem_cons_of_mem _ hm, ?_⟩
      simpa [overlay_nbt, hc] using he

/-- C9: for both item-construction paths (create_new_item copying an
Item, and create_item with a modify_nbt overlay), an explicit override
key already present in the NBT being overlaid raises a value error whose
message identifies a conflicting key and which carries the offending
token; no Item is produced. -/
theorem nbt_override_conflict (item : Item) (modify : List (String × Token))
    (errTok : Option Token) (itemTypeArg displayNameArg : String)
    (loreArg : Option (List String)) (nbtArg : List (String × Token)) :
    ((∃ kv ∈ modify, kv.1 ∈ item.raw_nbt.map (fun kv2 => kv2.1)) →
      ∃ k tk, (k, tk) ∈ modify ∧
        create_new_item item modify errTok =
          Except.error { message := k ++ " is already inside the nbt",
                         token := errTok.getD tk }) ∧
    ((∃ kv ∈ modify, kv.1 ∈ nbtArg.map (fun kv2 => kv2.1)) →
      ∃ k tk, (k, tk) ∈ modify ∧
        create_item itemTypeArg displayNameArg loreArg (some nbtArg) modify =
          Except.error (PyError.valueError
            { message := k ++ " is already inside the nbt", token := tk })) := by
  constructor
  · intro h
    obtain ⟨k, tk, hm, he⟩ := overlay_nbt_conflict modify item.raw_nbt errTok h
    exact ⟨k, tk, hm, by simp [create_new_item, he]⟩
  · intro h
    obtain ⟨k, tk, hm, he⟩ := overlay_nbt_conflict modify nbtArg none h
    refine ⟨k, tk, hm, ?_⟩
    simp [create_item, he]

/-- Witness for C9: overriding damage, already present, on both paths. -/
theorem nbt_override_conflict_witness :
    (∃ k tk, (k, tk) ∈ [(("damage"), Token.mk ("2"))] ∧
      create_new_item
          { item_type := ("stick"), raw := ("\x7bdamage:1\x7d"),
            raw_nbt := [(("damage"), Token.mk ("1"))] }
          [(("damage"), Token.mk ("2"))] none =
        Except.error { message := k ++ " is already inside the nbt",
                       token := (none : Option Token).getD tk }) ∧
    (∃ k tk, (k, tk) ∈ [(("damage"), Token.mk ("2"))] ∧
      create_item ("stick") "" none (some [(("damage"), Token.mk ("3"))])
          [(("damage"), Token.mk ("2"))] =
        Except.error (PyError.valueError
          { message := k ++ " is already inside the nbt", token := tk })) :=
  ⟨(nbt_override_conflict
      { item_type := ("stick"), raw := ("\x7bdamage:1\x7d"),
        raw_nbt := [(("damage"), Token.mk ("1"))] }
      [(("damage"), Token.mk ("2"))] none ("stick") "" none
      [(("damage"), Token.mk ("3"))]).1
    ⟨(("damage"), Token.mk ("2")), by decide, by decide⟩,
   (nbt_override_conflict
      { item_type := ("stick"), raw := ("\x7bdamage:1\x7d"),
        raw_nbt := [(("damage"), Token.mk ("1"))] }
      [(("damage"), Token.mk ("2"))] none ("stick") "" none
      [(("damage"), Token.mk ("3"))]).2
    ⟨(("damage"), Token.mk ("2")), by decide, by decide⟩⟩

/-- C5 counterexample: recompiling a certified namespace whose datapack
has no (non-empty) tick function leaves tick.json untouched — its stale
this-namespace entry survives and no fresh tick reference is appended —
while load.json is merged as the claim describes.  So the claimed
unconditional strip-and-append does not hold for tick.json. -/
theorem tick_tag_stale_cex :
    (compile_run
        { nsDir := some
            { cert := some ("LOAD=__load__\nTICK=__tick__\nPRIVATE=__private__\nVAR=__variable__\nINT=__int__"),
              files := ["f"] },
          loadTag := TagFileState.parsed [("other_ns:foo"), ("this_ns:old")] [],
          tickTag := TagFileState.parsed [("other_ns:bar"), ("this_ns:oldtick")] [] }
        ⟨"__load__", "__tick__", "__private__", "__variable__", "__int__"⟩
        ("this_ns") []).fs.tickTag =
      TagFileState.parsed [("other_ns:bar"), ("this_ns:oldtick")] [] ∧
    (compile_run
        { nsDir := some
            { cert := some ("LOAD=__load__\nTICK=__tick__\nPRIVATE=__private__\nVAR=__variable__\nINT=__int__"),
              files := ["f"] },
          loadTag := TagFileState.parsed [("other_ns:foo"), ("this_ns:old")] [],
          tickTag := TagFileState.parsed [("other_ns:bar"), ("this_ns:oldtick")] [] }
        ⟨"__load__", "__tick__", "__private__", "__variable__", "__int__"⟩
        ("this_ns") []).fs.loadTag =
      TagFileState.parsed [("other_ns:foo"), ("this_ns:__load__")] [] := by
  exact ⟨rfl, rfl⟩

/-- C5 amended: read_func_tag treats a missing tag file as an empty
values list, fails the build on undecodable JSON or a missing values key,
and on a parsed file removes exactly the values entries with this
namespace's prefix and a colon, preserving all others verbatim; build
then appends this compilation's load reference to load.json, but merges
and rewrites tick.json the same way only when the compilation produced a
non-empty tick function — otherwise tick.json is left untouched. -/
theorem tag_merge_spec (fs : FS) (names : CertNames) (ns : String)
    (funcs : List (String × List String)) :
    read_func_tag TagFileState.missing ns = Except.ok ([], []) ∧
    (∃ e, read_func_tag TagFileState.malformed ns = Except.error e) ∧
    (∃ e, read_func_tag TagFileState.noValuesKey ns = Except.error e) ∧
    (∀ values others, read_func_tag (TagFileState.parsed values others) ns =
      Except.ok (values.filter (fun v => !(py_startswith v (ns ++ ":"))), others)) ∧
    ((fs.loadTag = TagFileState.malformed ∨ fs.loadTag = TagFileState.noValuesKey ∨
      fs.tickTag = TagFileState.malformed ∨ fs.tickTag = TagFileState.noValuesKey) →
      ∃ e, (build_run fs names ns funcs).outcome = Except.error e) ∧
    (∀ lv lo tv tr, fs.loadTag = TagFileState.parsed lv lo →
      fs.tickTag = TagFileState.parsed tv tr →
      (build_run fs names ns funcs).fs.loadTag =
        TagFileState.parsed
          (lv.filter (fun v => !(py_startswith v (ns ++ ":"))) ++ [ns ++ ":" ++ names.LOAD_NAME]) lo ∧
      (tick_function_present funcs names = true →
        (build_run fs names ns funcs).fs.tickTag =
          TagFileState.parsed
            (tv.filter (fun v => !(py_startswith v (ns ++ ":"))) ++ [ns ++ ":" ++ names.TICK_NAME]) tr) ∧
      (tick_function_present funcs names = false →
        (build_run fs names ns funcs).fs.tickTag = fs.tickTag)) := by
  refine ⟨rfl, ⟨_, rfl⟩, ⟨_, rfl⟩, fun values others => rfl, ?_, ?_⟩
  · intro h
    rcases h with h | h | h | h
    · simp [build_run, h, read_func_tag]
    · simp [build_run, h, read_func_tag]
    · cases hlt : fs.loadTag <;> simp [build_run, read_func_tag, hlt, h]
    · cases hlt : fs.loadTag <;> simp [build_run, read_func_tag, hlt, h]
  · intro lv lo tv tr hL hT
    by_cases htick : tick_function_present funcs names
    · refine ⟨?_, fun _ => ?_, fun hcontra => absurd htick (by simp [hcontra])⟩ <;>
        simp [build_run, hL, hT, read_func_tag, htick]
    · refine ⟨?_, fun hcontra => absurd hcontra (by simp [htick]), fun _ => ?_⟩ <;>
        simp [build_run, hL, hT, read_func_tag, htick]

/-- Witness for C5 amended: a concrete merge with a present tick function,
and a concrete malformed load.json failing the build. -/
theorem tag_merge_spec_witness :
    (build_run
        { nsDir := none, loadTag := TagFileState.parsed [("a:x"), ("n:y")] [],
          tickTag := TagFileState.parsed [("n:z")] [] }
        ⟨"L", "T", "P", "V", "I"⟩ ("n") [(("T"), [("cmd")])]).fs.loadTag =
      TagFileState.parsed [("a:x"), ("n:L")] [] ∧
    (build_run
        { nsDir := none, loadTag := TagFileState.parsed [("a:x"), ("n:y")] [],
          tickTag := TagFileState.parsed [("n:z")] [] }
        ⟨"L", "T", "P", "V", "I"⟩ ("n") [(("T"), [("cmd")])]).fs.tickTag =
      TagFileState.parsed [("n:T")] [] ∧
    (∃ e, (build_run
        { nsDir := none, loadTag := TagFileState.malformed,
          tickTag := TagFileState.parsed [("n:z")] [] }
        ⟨"L", "T", "P", "V", "I"⟩ ("n") [(("T"), [("cmd")])]).outcome = Except.error e) :=
  ⟨((tag_merge_spec
      { nsDir := none, loadTag := TagFileState.parsed [("a:x"), ("n:y")] [],
        tickTag := TagFileState.parsed [("n:z")] [] }
      ⟨"L", "T", "P", "V", "I"⟩ ("n") [(("T"), [("cmd")])]).2.2.2.2.2
      [("a:x"), ("n:y")] [] [("n:z")] [] rfl rfl).1,
   ((tag_merge_spec
      { nsDir := none, loadTag := TagFileState.parsed [("a:x"), ("n:y")] [],
        tickTag := TagFileState.parsed [("n:z")] [] }
      ⟨"L", "T", "P", "V", "I"⟩ ("n") [(("T"), [("cmd")])]).2.2.2.2.2
      [("a:x"), ("n:y")] [] [("n:z")] [] rfl rfl).2.1 (by decide),
   (tag_merge_spec
      { nsDir := none, loadTag := TagFileState.malformed,
        tickTag := TagFileState.parsed [("n:z")] [] }
      ⟨"L", "T", "P", "V", "I"⟩ ("n") [(("T"), [("cmd")])]).2.2.2.2.1
      (Or.inl rfl)⟩

/- ## Certificate round trip: helper lemmas -/

/-- py_split never returns the empty list of parts. -/
theorem py_split_ne_nil (sep : Char) (l : List Char) : py_split sep l ≠ [] := by
  induction l with
  | nil => simp [py_split]
  | cons c rest ih =>
    simp only [py_split]
    cases h : py_split sep rest with
    | nil => simp
    | cons r rs => by_cases hc : c = sep <;> simp [hc]

/-- Splitting a list free of the separator yields that single part. -/
theorem py_split_of_not_mem (sep : Char) (l : List Char) (h : sep ∉ l) :
    py_split sep l = [l] := by
  induction l with
  | nil => rfl
  | cons c rest ih =>
    have hc : c ≠ sep := fun e => h (e ▸ List.mem_cons_self c rest)
    have hr : sep ∉ rest := fun m => h (List.mem_cons_of_mem _ m)
    simp [py_split, ih hr, hc]

/-- Splitting at the first separator occurrence peels off the prefix. -/
theorem py_split_append (sep : Char) (a b : List Char) (h : sep ∉ a) :
    py_split sep (a ++ sep :: b) = a :: py_split sep b := by
  induction a with
  | nil =>
    simp only [List.nil_append, py_split]
    cases hb : py_split sep b with
    | nil => exact absurd hb (py_split_ne_nil sep b)
    | cons r rs => simp
  | cons c rest ih =>
    have hc : c ≠ sep := fun e => h (e ▸ List.mem_cons_self c rest)
    have hr : sep ∉ rest := fun m => h (List.mem_cons_of_mem _ m)
    have ih2 := ih hr
    simp only [List.cons_append, py_split, List.append_eq]
    rw [ih2]
    simp [hc]

/-- dropWhile is the identity when no element satisfies the predicate
(the head check suffices). -/
theorem dropWhile_of_all_false {p : Char → Bool} (l : List Char)
    (h : ∀ c ∈ l, p c = false) : l.dropWhile p = l := by
  cases l with
  | nil => rfl
  | cons c rest => simp [List.dropWhile_cons, h c (List.mem_cons_self c rest)]

/-- py_strip is the identity on whitespace-free lists. -/
theorem py_strip_of_no_ws (l : List Char) (h : ∀ c ∈ l, c.isWhitespace = false) :
    py_strip l = l := by
  unfold py_strip
  rw [dropWhile_of_all_false l h,
      dropWhile_of_all_false l.reverse (fun c hc => h c (List.mem_reverse.mp hc)),
      List.reverse_reverse]

/-- Well-formed reserved names: alphanumerics and underscores only, hence
free of newlines, equals signs and whitespace. -/
def goodStr (s : String) : Bool :=
  s.data.all (fun c => c.isAlphanum || c == '_')

/-- A character failing the goodStr character test cannot occur in a
goodStr string. -/
theorem goodStr_not_mem {s : String} (h : goodStr s = true) {c0 : Char}
    (hc0 : (c0.isAlphanum || c0 == '_') = false) : c0 ∉ s.data := by
  intro hm
  have h1 := List.all_eq_true.mp h c0 hm
  rw [hc0] at h1
  exact Bool.false_ne_true h1

/-- goodStr strings contain no whitespace characters. -/
theorem goodStr_not_ws {s : String} (h : goodStr s = true) :
    ∀ c ∈ s.data, c.isWhitespace = false := by
  intro c hc
  have h1 : (c.isAlphanum || c == '_') = true := List.all_eq_true.mp h c hc
  by_contra hw
  have hw2 : c.isWhitespace = true := by
    revert hw; cases c.isWhitespace <;> simp
  have hw3 : ((c = ' ' ∨ c = '\t') ∨ c = '\r') ∨ c = '\n' := by
    simpa [Char.isWhitespace] using hw2
  rcases hw3 with ((e | e) | e) | e <;> subst e <;> exact absurd h1 (by decide)

/-- The newline separator does not occur inside a KEY=VALUE line whose key
is newline-free and whose value is a good string. -/
theorem newline_not_mem_line {v : String} (K : List Char) (hK : ('\n') ∉ K)
    (hv : goodStr v = true) : ('\n') ∉ K ++ '=' :: v.data := by
  intro hm
  rcases List.mem_append.mp hm with h1 | h1
  · exact hK h1
  · rcases List.mem_cons.mp h1 with h2 | h2
    · exact absurd h2 (by decide)
    · exact goodStr_not_mem hv (by decide) h2

/-- One KEY=VALUE line splits on the equals sign back into key and value
when the key is separator-free and the value is a good string. -/
theorem py_split_kv (K : List Char) (v : String)
    (hK : ('=') ∉ K) (hv : goodStr v = true) :
    py_split '=' (K ++ '=' :: v.data) = [K, v.data] := by
  rw [py_split_append _ _ _ hK,
      py_split_of_not_mem _ _ (goodStr_not_mem hv (by decide))]

/-- Rebuilding a String from its character data is the identity. -/
theorem mk_data (s : String) : String.mk s.data = s := rfl

/-- Writing the five reserved names with cert_config_to_string and parsing
the result with string_to_cert_config is the identity when every name is
a good string: the certificate round trip loses nothing. -/
theorem cert_roundtrip (names : CertNames)
    (gL : goodStr names.LOAD_NAME = true) (gT : goodStr names.TICK_NAME = true)
    (gP : goodStr names.PRIVATE_NAME = true) (gV : goodStr names.VAR_NAME = true)
    (gI : goodStr names.INT_NAME = true) :
    string_to_cert_config (cert_config_to_string (get_cert names)) =
      some (get_cert names) := by
  have hdata : (cert_config_to_string (get_cert names)).data =
      ("LOAD".data ++ '=' :: names.LOAD_NAME.data) ++ '\n' ::
      (("TICK".data ++ '=' :: names.TICK_NAME.data) ++ '\n' ::
      (("PRIVATE".data ++ '=' :: names.PRIVATE_NAME.data) ++ '\n' ::
      (("VAR".data ++ '=' :: names.VAR_NAME.data) ++ '\n' ::
      ("INT".data ++ '=' :: names.INT_NAME.data)))) := by
    simp [cert_config_to_string, get_cert, py_join]
  have hsplit : py_split '\n' (cert_config_to_string (get_cert names)).data =
      [("LOAD".data ++ '=' :: names.LOAD_NAME.data),
       ("TICK".data ++ '=' :: names.TICK_NAME.data),
       ("PRIVATE".data ++ '=' :: names.PRIVATE_NAME.data),
       ("VAR".data ++ '=' :: names.VAR_NAME.data),
       ("INT".data ++ '=' :: names.INT_NAME.data)] := by
    rw [hdata,
        py_split_append _ _ _ (newline_not_mem_line _ (by decide) gL),
        py_split_append _ _ _ (newline_not_mem_line _ (by decide) gT),
        py_split_append _ _ _ (newline_not_mem_line _ (by decide) gP),
        py_split_append _ _ _ (newline_not_mem_line _ (by decide) gV),
        py_split_of_not_mem _ _ (newline_not_mem_line _ (by decide) gI)]
  unfold string_to_cert_config
  rw [hsplit]
  have k1 : py_strip ("LOAD".data) = "LOAD".data := by decide
  have k2 : py_strip ("TICK".data) = "TICK".data := by decide
  have k3 : py_strip ("PRIVATE".data) = "PRIVATE".data := by decide
  have k4 : py_strip ("VAR".data) = "VAR".data := by decide
  have k5 : py_strip ("INT".data) = "INT".data := by decide
  simp only [List.foldlM,
    py_split_kv ("LOAD".data) names.LOAD_NAME (by decide) gL,
    py_split_kv ("TICK".data) names.TICK_NAME (by decide) gT,
    py_split_kv ("PRIVATE".data) names.PRIVATE_NAME (by decide) gP,
    py_split_kv ("VAR".data) names.VAR_NAME (by decide) gV,
    py_split_kv ("INT".data) names.INT_NAME (by decide) gI,
    k1, k2, k3, k4, k5,
    py_strip_of_no_ws names.LOAD_NAME.data (goodStr_not_ws gL),
    py_strip_of_no_ws names.TICK_NAME.data (goodStr_not_ws gT),
    py_strip_of_no_ws names.PRIVATE_NAME.data (goodStr_not_ws gP),
    py_strip_of_no_ws names.VAR_NAME.data (goodStr_not_ws gV),
    py_strip_of_no_ws names.INT_NAME.data (goodStr_not_ws gI),
    mk_data]
  simp [pySet, get_cert]

/-- C6: with a parsable certificate present, the five reserved names read
from it are adopted as the compilation's reserved constants and written
back into the fresh certificate; hence a second build into the resulting
namespace — whatever its regenerated files and whatever the then-current
default names — adopts the same five names again. -/
theorem certificate_continuity (fs : FS) (old : CertNames)
    (d : NamespaceDir) (c : String) (m : List (String × String))
    (l t p v i : String)
    (hdir : fs.nsDir = some d) (hcert : d.cert = some c)
    (hparse : string_to_cert_config c = some m)
    (hL : dictGet m ("LOAD") = some l) (hT : dictGet m ("TICK") = some t)
    (hP : dictGet m ("PRIVATE") = some p) (hV : dictGet m ("VAR") = some v)
    (hI : dictGet m ("INT") = some i)
    (gL : goodStr l = true) (gT : goodStr t = true) (gP : goodStr p = true)
    (gV : goodStr v = true) (gI : goodStr i = true) :
    (read_cert fs old).outcome = Except.ok ⟨l, t, p, v, i⟩ ∧
    (read_cert fs old).fs.nsDir =
      some { cert := some (cert_config_to_string (get_cert ⟨l, t, p, v, i⟩)), files := [] } ∧
    (∀ (fs2 : FS) (old2 : CertNames) (d2 : NamespaceDir), fs2.nsDir = some d2 →
      d2.cert = some (cert_config_to_string (get_cert ⟨l, t, p, v, i⟩)) →
      (read_cert fs2 old2).outcome = Except.ok ⟨l, t, p, v, i⟩) := by
  refine ⟨?_, ?_, ?_⟩
  · simp [read_cert, hdir, hcert, hparse, hL, hT, hP, hV, hI]
  · simp [read_cert, hdir, hcert, hparse, hL, hT, hP, hV, hI, get_cert]
  · intro fs2 old2 d2 h2 h3
    have hrt := cert_roundtrip ⟨l, t, p, v, i⟩ gL gT gP gV gI
    simp only [get_cert] at hrt
    simp [read_cert, h2, h3, hrt, dictGet, get_cert, List.find?]

/-- Witness for C6: a concrete certificate carrying five custom names,
adopted on the first build and again on a second build over the written
certificate under different current defaults. -/
theorem certificate_continuity_witness :
    (read_cert
        { nsDir := some { cert := some ("LOAD=load2\nTICK=tick2\nPRIVATE=p2\nVAR=v2\nINT=i2"),
                          files := ["f"] },
          loadTag := TagFileState.missing, tickTag := TagFileState.missing }
        ⟨"__load__", "__tick__", "__private__", "__variable__", "__int__"⟩).outcome =
      Except.ok ⟨"load2", "tick2", "p2", "v2", "i2"⟩ ∧
    (read_cert
        { nsDir := some
            { cert := some (cert_config_to_string (get_cert ⟨"load2", "tick2", "p2", "v2", "i2"⟩)),
              files := ["regenerated"] },
          loadTag := TagFileState.missing, tickTag := TagFileState.missing }
        ⟨"other_load", "other_tick", "other_private", "other_var", "other_int"⟩).outcome =
      Except.ok ⟨"load2", "tick2", "p2", "v2", "i2"⟩ :=
  have h := certificate_continuity
    { nsDir := some { cert := some ("LOAD=load2\nTICK=tick2\nPRIVATE=p2\nVAR=v2\nINT=i2"),
                      files := ["f"] },
      loadTag := TagFileState.missing, tickTag := TagFileState.missing }
    ⟨"__load__", "__tick__", "__private__", "__variable__", "__int__"⟩
    { cert := some ("LOAD=load2\nTICK=tick2\nPRIVATE=p2\nVAR=v2\nINT=i2"), files := ["f"] }
    ("LOAD=load2\nTICK=tick2\nPRIVATE=p2\nVAR=v2\nINT=i2")
    [(("LOAD"), ("load2")), (("TICK"), ("tick2")), (("PRIVATE"), ("p2")),
     (("VAR"), ("v2")), (("INT"), ("i2"))]
    ("load2") ("tick2") ("p2") ("v2") ("i2")
    rfl rfl (by decide) (by decide) (by decide) (by decide) (by decide) (by decide)
    (by decide) (by decide) (by decide) (by decide) (by decide)
  ⟨h.1, h.2.2 _ _
    { cert := some (cert_config_to_string (get_cert ⟨"load2", "tick2", "p2", "v2", "i2"⟩)),
      files := ["regenerated"] } rfl rfl⟩

end Jmc
